import Mathlib

/-!
Shallow embedding of the deployment orchestrator `deploy.py` and of the
record service `backend/main.py` of the events-API repository, together
with theorems settling the behavioural claims about them.

Remote AWS state (DynamoDB tables, IAM roles, S3 buckets and objects,
Lambda functions, API Gateway REST APIs, Lambda resource permissions) is
modelled by an explicit `World` record threaded through the provisioners.
External nondeterminism is passed in as parameters: the artifact's size
and byte content (the zip is built on the local filesystem), the
timestamp-derived bucket name, whether `pip install` succeeds, and
whether the S3 bucket creation succeeds.  AWS-assigned identifiers (role
ARNs, function ARNs, REST-API ids) are modelled by deterministic
functions of the resource name respectively by an injective generator
driven by a counter, reflecting that the platform assigns each new API a
fresh opaque identifier.
-/

/-- Delivery reference for the Lambda code: either the raw zip bytes
passed inline (`Code={'ZipFile': ...}`) or a staged S3 location
(`Code={'S3Bucket': ..., 'S3Key': ...}`), deploy.py lines 176-183. -/
inductive DeliveryRef where
  | zipFile (content : String)
  | s3 (bucket : String) (key : String)
deriving DecidableEq, Repr

/-- A DynamoDB table as created by deploy.py lines 65-74. -/
structure TableRec where
  name : String
  keyAttribute : String
  keyType : String
  attributeType : String
  billingMode : String
deriving DecidableEq, Repr

/-- The table specification passed to `dynamodb_client.create_table`
(deploy.py lines 65-74). -/
def events_table_spec : TableRec :=
  { name := "EventsTable", keyAttribute := "eventId", keyType := "HASH",
    attributeType := "S", billingMode := "PAY_PER_REQUEST" }

/-- One statement of the trust policy of deploy.py lines 90-97. -/
structure TrustStatement where
  effect : String
  principalService : String
  action : String
deriving DecidableEq, Repr

/-- `trust_policy` of deploy.py lines 90-97. -/
def trust_policy : TrustStatement :=
  { effect := "Allow", principalService := "lambda.amazonaws.com",
    action := "sts:AssumeRole" }

/-- One statement of an identity policy: effect, action list, resource. -/
structure PolicyStatement where
  effect : String
  actions : List String
  resource : String
deriving DecidableEq, Repr

/-- `dynamodb_policy` of deploy.py lines 115-128: the single inline
statement granting the five data-plane actions on `EventsTable`. -/
def dynamodb_policy : PolicyStatement :=
  { effect := "Allow",
    actions := ["dynamodb:PutItem", "dynamodb:GetItem", "dynamodb:UpdateItem",
                "dynamodb:DeleteItem", "dynamodb:Scan"],
    resource := "arn:aws:dynamodb:us-west-2:*:table/EventsTable" }

/-- An IAM role as held by the remote account: its attached managed
policies and its inline policies (name, document). -/
structure RoleRec where
  name : String
  arn : String
  assumeRolePolicy : TrustStatement
  description : String
  attachedManaged : List String
  inlinePolicies : List (String × PolicyStatement)
deriving DecidableEq, Repr

/-- A Lambda function as held by the remote account (the arguments of
`create_function`, deploy.py lines 188-216). -/
structure FunctionRec where
  name : String
  runtime : String
  role : String
  handler : String
  code : DeliveryRef
  env : List (String × String)
  timeout : Nat
  memorySize : Nat
deriving DecidableEq, Repr

/-- An API Gateway resource with its (single) method and integration,
as configured by `put_method` / `put_integration` in deploy.py. -/
structure ResourceRec where
  id : String
  pathPart : String
  methodHttp : String
  methodAuth : String
  integrationType : String
  integrationHttpMethod : String
  integrationUri : String
deriving DecidableEq, Repr

/-- A REST API container (deploy.py lines 253-315). -/
structure ApiRec where
  id : String
  name : String
  description : String
  endpointType : String
  resources : List ResourceRec
  deployedStage : Option String
deriving DecidableEq, Repr

/-- The remote account state threaded through the provisioners.
`tablesActive` holds the tables known to have reached ACTIVE;
`sleptSeconds` accumulates the wall-clock `time.sleep` calls the script
performs; `permissions` holds the Lambda resource-policy statements
(function name, statement id) added by `add_permission`. -/
structure World where
  tables : List TableRec
  tablesActive : List String
  roles : List RoleRec
  sleptSeconds : Nat
  buckets : List String
  s3Objects : List (String × String × String)
  functions : List FunctionRec
  apiCounter : Nat
  apis : List ApiRec
  permissions : List (String × String)
deriving DecidableEq, Repr

/-- The empty (cold) account. -/
def World.empty : World :=
  { tables := [], tablesActive := [], roles := [], sleptSeconds := 0,
    buckets := [], s3Objects := [], functions := [], apiCounter := 0,
    apis := [], permissions := [] }

/-! ## `create_dynamodb_table` (deploy.py lines 61-83) -/

/-- `create_dynamodb_table`: tries `create_table`; on success waits with
the `table_exists` waiter until the table is active (lines 77-80); the
`ResourceInUseException` handler (lines 82-83) only prints and returns,
issuing no wait.  The returned flag records whether the waiter ran.
`create_table` raises `ResourceInUseException` exactly when a table of
that name already exists. -/
def create_dynamodb_table (w : World) : World × Bool :=
  if w.tables.any (fun t => t.name == "EventsTable") then
    (w, false)
  else
    let w1 := { w with tables := events_table_spec :: w.tables }
    let w2 := { w1 with tablesActive := "EventsTable" :: w1.tablesActive }
    (w2, true)

/-! ## `create_lambda_role` (deploy.py lines 85-145) -/

/-- The ARN AWS assigns to an IAM role: deterministic in the account and
the role name.  The account id is fixed for the model. -/
def role_arn_of (role_name : String) : String :=
  "arn:aws:iam::123456789012:role/" ++ role_name

/-- `iam_client.attach_role_policy` (deploy.py lines 109-112). -/
def iam_attach_role_policy (role_name policy_arn : String) (w : World) : World :=
  { w with roles := w.roles.map fun r =>
      if r.name == role_name then
        { r with attachedManaged := r.attachedManaged ++ [policy_arn] }
      else r }

/-- `iam_client.put_role_policy` (deploy.py lines 130-134). -/
def iam_put_role_policy (role_name policy_name : String) (doc : PolicyStatement)
    (w : World) : World :=
  { w with roles := w.roles.map fun r =>
      if r.name == role_name then
        { r with inlinePolicies := r.inlinePolicies ++ [(policy_name, doc)] }
      else r }

/-- `create_lambda_role` (deploy.py lines 85-145).  `create_role` raises
`EntityAlreadyExistsException` exactly when a role of that name exists,
which the handler (lines 142-145) turns into `get_role` returning the
existing role's ARN.  On fresh creation the script attaches the basic
execution managed policy, puts the `DynamoDBAccess` inline policy, and
sleeps 10 seconds for propagation before returning the new ARN. -/
def create_lambda_role (w : World) : World × String :=
  match w.roles.find? (fun r => r.name == "EventsApiLambdaRole") with
  | some r => (w, r.arn)
  | none =>
    let arn := role_arn_of "EventsApiLambdaRole"
    let r0 : RoleRec :=
      { name := "EventsApiLambdaRole", arn := arn,
        assumeRolePolicy := trust_policy,
        description := "Execution role for Events API Lambda",
        attachedManaged := [], inlinePolicies := [] }
    let w1 := { w with roles := r0 :: w.roles }
    let w2 := iam_attach_role_policy "EventsApiLambdaRole"
      "arn:aws:iam::aws:policy/service-role/AWSLambdaBasicExecutionRole" w1
    let w3 := iam_put_role_policy "EventsApiLambdaRole" "DynamoDBAccess"
      dynamodb_policy w2
    let w4 := { w3 with sleptSeconds := w3.sleptSeconds + 10 }
    (w4, arn)

/-! ## `create_or_update_lambda` (deploy.py lines 147-246) -/

/-- The environment passed to `create_function` and
`update_function_configuration` (deploy.py lines 194-198, 209-213,
238-244). -/
def function_env : List (String × String) := [("DYNAMODB_TABLE", "EventsTable")]

/-- The ARN AWS assigns to a Lambda function: deterministic in account
and function name (account fixed for the model). -/
def function_arn_of (function_name : String) : String :=
  "arn:aws:lambda:us-west-2:123456789012:function:" ++ function_name

/-- `size_mb = file_size / (1024 * 1024)` (deploy.py line 153).  Python
computes this in binary floating point; for the comparison against the
integer 50 the exact rational value decides identically (the quotient of
a byte count by 2^20 is exactly representable at the boundary, and away
from it the rounding error is far smaller than the distance to 50), so
the model uses exact rationals. -/
def size_mb (file_size : Nat) : ℚ := (file_size : ℚ) / (1024 * 1024)

/-- The delivery-strategy test `size_mb > 50` (deploy.py line 156). -/
def uses_s3 (file_size : Nat) : Bool := decide (50 < size_mb file_size)

/-- Deploy.py lines 151-183: the delivery-strategy selection inside
`create_or_update_lambda`.  Over the threshold it creates the
timestamp-named bucket (lines 160-169; on failure prints and the caller
returns `None`, modelled by the `none` result), uploads the zip under
key `lambda_function.zip` (lines 172-174) and delivers `(bucket, key)`;
otherwise it delivers the raw zip bytes read from disk (lines 181-183). -/
def select_delivery (file_size : Nat) (zip_content bucket_name : String)
    (bucket_create_ok : Bool) (w : World) : World × Option DeliveryRef :=
  if uses_s3 file_size then
    if bucket_create_ok then
      let w1 := { w with buckets := bucket_name :: w.buckets }
      let w2 := { w1 with s3Objects :=
        (bucket_name, "lambda_function.zip", zip_content) :: w1.s3Objects }
      (w2, some (DeliveryRef.s3 bucket_name "lambda_function.zip"))
    else
      (w, none)
  else
    (w, some (DeliveryRef.zipFile zip_content))

/-- `lambda_client.update_function_code` (deploy.py lines 222-232):
replaces only the code of the named function. -/
def lambda_update_code (function_name : String) (code : DeliveryRef)
    (w : World) : World :=
  { w with functions := w.functions.map fun f =>
      if f.name == function_name then { f with code := code } else f }

/-- `lambda_client.update_function_configuration` (deploy.py lines
237-244): replaces only the environment of the named function. -/
def lambda_update_configuration (function_name : String)
    (env : List (String × String)) (w : World) : World :=
  { w with functions := w.functions.map fun f =>
      if f.name == function_name then { f with env := env } else f }

/-- `create_or_update_lambda` (deploy.py lines 147-246).  After delivery
selection it tries `create_function` (the source's two branches at lines
187-216 pass identical arguments, so they are modelled once);
`create_function` raises `ResourceConflictException` exactly when a
function of that name exists, and the handler (lines 220-244) then
updates the code and afterwards the configuration.  A bucket-creation
failure makes the function return `None` (line 169) with no function
mutation. -/
def create_or_update_lambda (role_arn : String) (file_size : Nat)
    (zip_content bucket_name : String) (bucket_create_ok : Bool)
    (w : World) : World × Option String :=
  match select_delivery file_size zip_content bucket_name bucket_create_ok w with
  | (w1, none) => (w1, none)
  | (w1, some code) =>
    match w1.functions.find? (fun f => f.name == "EventsApiFunction") with
    | some _ =>
      let w2 := lambda_update_code "EventsApiFunction" code w1
      let w3 := lambda_update_configuration "EventsApiFunction" function_env w2
      (w3, some (function_arn_of "EventsApiFunction"))
    | none =>
      let f0 : FunctionRec :=
        { name := "EventsApiFunction", runtime := "python3.11", role := role_arn,
          handler := "lambda_handler.handler", code := code, env := function_env,
          timeout := 30, memorySize := 512 }
      ({ w1 with functions := f0 :: w1.functions },
       some (function_arn_of "EventsApiFunction"))

/-! ## `create_api_gateway` (deploy.py lines 248-336) -/

/-- Python string interpolation of a possibly-`None` value, as in the
f-string building the integration URI when `create_or_update_lambda`
returned `None`. -/
def optStr : Option String → String
  | some s => s
  | none => "None"

/-- The integration URI of deploy.py line 274. -/
def lambda_invocation_uri (lambda_arn : Option String) : String :=
  "arn:aws:apigateway:us-west-2:lambda:path/2015-03-31/functions/"
    ++ optStr lambda_arn ++ "/invocations"

/-- The fresh opaque REST-API id assigned by the platform for the n-th
created API: any injective generator models this assignment; the model
uses a string of length n+1. -/
def fresh_api_id (n : Nat) : String := String.mk (List.replicate (n + 1) 'a')

/-- The invocation URL of deploy.py line 332. -/
def api_url_of (api_id : String) : String :=
  "https://" ++ api_id ++ ".execute-api.us-west-2.amazonaws.com/prod"

/-- `lambda_client.add_permission` with the `ResourceConflictException`
handler (deploy.py lines 321-330): adds the statement unless one with
that statement id is already present on the function. -/
def lambda_add_permission (function_name statement_id : String) (w : World) : World :=
  if w.permissions.contains (function_name, statement_id) then w
  else { w with permissions := (function_name, statement_id) :: w.permissions }

/-- `create_api_gateway` (deploy.py lines 248-336): unconditionally
creates a new REST API (line 253, no lookup of an existing one), binds
an ANY method with an AWS_PROXY integration on the root resource and on
a `\x7bproxy+\x7d` child resource, deploys stage `prod`, grants the gateway
invoke permission on the function, and returns the invocation URL. -/
def create_api_gateway (lambda_arn : Option String) (w : World) : World × String :=
  let api_id := fresh_api_id w.apiCounter
  let uri := lambda_invocation_uri lambda_arn
  let root : ResourceRec :=
    { id := api_id ++ "-root", pathPart := "", methodHttp := "ANY",
      methodAuth := "NONE", integrationType := "AWS_PROXY",
      integrationHttpMethod := "POST", integrationUri := uri }
  let proxy : ResourceRec := { root with
    id := api_id ++ "-proxy",
    pathPart := "\x7bproxy+\x7d" }
  let api : ApiRec :=
    { id := api_id, name := "EventsApi", description := "Events Management API",
      endpointType := "REGIONAL", resources := [root, proxy],
      deployedStage := some "prod" }
  let w1 := { w with apiCounter := w.apiCounter + 1, apis := api :: w.apis }
  let w2 := lambda_add_permission "EventsApiFunction" "apigateway-invoke" w1
  (w2, api_url_of api_id)

/-! ## `create_lambda_zip` and `main` (deploy.py lines 17-59, 338-363) -/

/-- The error raised by `subprocess.run([...pip install...], check=True)`
(deploy.py lines 32-37) when dependency resolution fails; it propagates
out of `create_lambda_zip` uncaught. -/
inductive DeployError where
  | calledProcessError
deriving DecidableEq, Repr

/-- `create_lambda_zip` (deploy.py lines 17-59): purely local-filesystem
work (staging directory, pip install, archive).  The artifact's size and
bytes are inputs of the model; a pip failure raises, everything else
returns the artifact.  (The size warning at line 56-57 is a print
only.) -/
def create_lambda_zip (pip_ok : Bool) (file_size : Nat) (zip_content : String) :
    Except DeployError (Nat × String) :=
  if pip_ok then Except.ok (file_size, zip_content)
  else Except.error DeployError.calledProcessError

/-- `main` (deploy.py lines 338-363): table, role, zip, function,
gateway, in that order.  An uncaught exception from `create_lambda_zip`
aborts the run there, after table and role provisioning; the result of
`create_or_update_lambda` is passed to `create_api_gateway` without any
check (a `None` flows into the integration URI).  (Named `deploy_main`
because Lean reserves `main` for executable entry points.) -/
def deploy_main (pip_ok : Bool) (file_size : Nat) (zip_content bucket_name : String)
    (bucket_create_ok : Bool) (w : World) : World × Except DeployError String :=
  let w1 := (create_dynamodb_table w).1
  let rr := create_lambda_role w1
  match create_lambda_zip pip_ok file_size zip_content with
  | Except.error e => (rr.1, Except.error e)
  | Except.ok fz =>
    let lr := create_or_update_lambda rr.2 fz.1 fz.2 bucket_name bucket_create_ok rr.1
    let gr := create_api_gateway lr.2 lr.1
    (gr.1, Except.ok gr.2)

/-! ## `create_event` (backend/main.py lines 55-68) -/

/-- The request body accepted by `POST /events` (the `Event` pydantic
model, backend/main.py lines 28-37): `eventId` is optional, everything
else required and validated. -/
structure Event where
  eventId : Option String
  title : String
  descriptions : String
  date : String
  location : String
  capacity : Int
  organizer : String
  status : String
deriving DecidableEq, Repr

/-- The item stored in the table by `create_event`: the request fields
with `eventId` set by the server and `createdAt` added. -/
structure StoredEvent where
  eventId : String
  title : String
  descriptions : String
  date : String
  location : String
  capacity : Int
  organizer : String
  status : String
  createdAt : String
deriving DecidableEq, Repr

/-- `create_event` (backend/main.py lines 55-68): generates a fresh
UUID (`fresh_uuid`, the value of `uuid.uuid4()`), overwrites the body's
`eventId` with it, stamps `createdAt` with the current time (`now`),
puts the item and returns it.  The table is modelled as the list of
stored items; the success path is modelled (a `ClientError` from
`put_item` becomes a 500 and stores nothing). -/
def create_event (fresh_uuid now : String) (event : Event)
    (tbl : List StoredEvent) : List StoredEvent × StoredEvent :=
  let event_data : StoredEvent :=
    { eventId := fresh_uuid, title := event.title,
      descriptions := event.descriptions, date := event.date,
      location := event.location, capacity := event.capacity,
      organizer := event.organizer, status := event.status,
      createdAt := now }
  (event_data :: tbl, event_data)

/-! ## Helper lemmas -/

/-- The float comparison `size_mb > 50` holds exactly above 50 MiB
= 52428800 bytes. -/
theorem uses_s3_iff (fs : Nat) : uses_s3 fs = true ↔ 52428800 < fs := by
  unfold uses_s3 size_mb
  rw [decide_eq_true_iff, lt_div_iff₀ (by norm_num : (0:ℚ) < 1024 * 1024)]
  norm_num

theorem uses_s3_eq_false_iff (fs : Nat) : uses_s3 fs = false ↔ fs ≤ 52428800 := by
  constructor
  · intro h
    by_contra hlt
    push_neg at hlt
    have ht := (uses_s3_iff fs).mpr hlt
    rw [h] at ht
    exact Bool.false_ne_true ht
  · intro h
    cases hb : uses_s3 fs
    · rfl
    · exact absurd ((uses_s3_iff fs).mp hb) (by omega)

/-- `find?` by name through a name-preserving single-record update. -/
theorem find?_map_update (l : List FunctionRec) (nm : String)
    (g : FunctionRec → FunctionRec) (hg : ∀ f, (g f).name = f.name) :
    (l.map fun f => if f.name == nm then g f else f).find?
        (fun f => f.name == nm)
      = (l.find? (fun f => f.name == nm)).map g := by
  induction l with
  | nil => rfl
  | cons a l ih =>
    simp only [List.map_cons]
    cases ha : (a.name == nm) with
    | true =>
      have h1 : List.find? (fun f => f.name == nm)
          (g a :: List.map (fun f => if (f.name == nm) = true then g f else f) l)
          = some (g a) :=
        List.find?_cons_of_pos _ (by rw [hg]; exact ha)
      have h2 : List.find? (fun f => f.name == nm) (a :: l) = some a :=
        List.find?_cons_of_pos _ ha
      rw [if_pos rfl, h1, h2]
      rfl
    | false =>
      have h1 : List.find? (fun f => f.name == nm)
          (a :: List.map (fun f => if (f.name == nm) = true then g f else f) l)
          = List.find? (fun f => f.name == nm)
              (List.map (fun f => if (f.name == nm) = true then g f else f) l) :=
        List.find?_cons_of_neg _ (by simp [ha])
      have h2 : List.find? (fun f => f.name == nm) (a :: l)
          = List.find? (fun f => f.name == nm) l :=
        List.find?_cons_of_neg _ (by simp [ha])
      rw [if_neg (by simp), h1, h2, ih]

/-- The names of the functions are untouched by a name-preserving
single-record update. -/
theorem map_name_update (l : List FunctionRec) (nm : String)
    (g : FunctionRec → FunctionRec) (hg : ∀ f, (g f).name = f.name) :
    (l.map fun f => if f.name == nm then g f else f).map (fun f => f.name)
      = l.map (fun f => f.name) := by
  induction l with
  | nil => rfl
  | cons a l ih =>
    simp only [List.map_cons, ih]
    cases ha : (a.name == nm) with
    | true => rw [if_pos rfl, hg]
    | false => rw [if_neg (by simp)]

/-- The already-exists branch of the table provisioner returns the state
unchanged with the waiter not run. -/
theorem create_dynamodb_table_exists (w : World)
    (h : w.tables.any (fun t => t.name == "EventsTable") = true) :
    create_dynamodb_table w = (w, false) := by
  simp [create_dynamodb_table, h]

/-- The already-exists branch of the role provisioner returns the state
unchanged with the stored ARN. -/
theorem create_lambda_role_exists (w : World) (r : RoleRec)
    (h : w.roles.find? (fun x => x.name == "EventsApiLambdaRole") = some r) :
    create_lambda_role w = (w, r.arn) := by
  unfold create_lambda_role
  rw [h]

/-- The fresh-creation branch of the role provisioner: the resulting
role record. -/
theorem create_lambda_role_fresh_find (w : World)
    (h : w.roles.find? (fun x => x.name == "EventsApiLambdaRole") = none) :
    (create_lambda_role w).1.roles.find? (fun x => x.name == "EventsApiLambdaRole")
      = some { name := "EventsApiLambdaRole",
               arn := role_arn_of "EventsApiLambdaRole",
               assumeRolePolicy := trust_policy,
               description := "Execution role for Events API Lambda",
               attachedManaged :=
                 ["arn:aws:iam::aws:policy/service-role/AWSLambdaBasicExecutionRole"],
               inlinePolicies := [("DynamoDBAccess", dynamodb_policy)] } := by
  unfold create_lambda_role
  rw [h]
  simp [iam_attach_role_policy, iam_put_role_policy, List.find?]

/-- The fresh-creation branch returns the fresh ARN and sleeps 10s. -/
theorem create_lambda_role_fresh_result (w : World)
    (h : w.roles.find? (fun x => x.name == "EventsApiLambdaRole") = none) :
    (create_lambda_role w).2 = role_arn_of "EventsApiLambdaRole" ∧
    (create_lambda_role w).1.sleptSeconds = w.sleptSeconds + 10 := by
  unfold create_lambda_role
  rw [h]
  simp [iam_attach_role_policy, iam_put_role_policy]

/-- The table provisioner touches only the table fields of the world. -/
theorem create_dynamodb_table_frame (w : World) :
    (create_dynamodb_table w).1.roles = w.roles ∧
    (create_dynamodb_table w).1.sleptSeconds = w.sleptSeconds ∧
    (create_dynamodb_table w).1.buckets = w.buckets ∧
    (create_dynamodb_table w).1.s3Objects = w.s3Objects ∧
    (create_dynamodb_table w).1.functions = w.functions ∧
    (create_dynamodb_table w).1.apiCounter = w.apiCounter ∧
    (create_dynamodb_table w).1.apis = w.apis ∧
    (create_dynamodb_table w).1.permissions = w.permissions := by
  unfold create_dynamodb_table
  split <;> simp

/-- The role provisioner touches only the role fields and the sleep
counter of the world. -/
theorem create_lambda_role_frame (w : World) :
    (create_lambda_role w).1.tables = w.tables ∧
    (create_lambda_role w).1.tablesActive = w.tablesActive ∧
    (create_lambda_role w).1.buckets = w.buckets ∧
    (create_lambda_role w).1.s3Objects = w.s3Objects ∧
    (create_lambda_role w).1.functions = w.functions ∧
    (create_lambda_role w).1.apiCounter = w.apiCounter ∧
    (create_lambda_role w).1.apis = w.apis ∧
    (create_lambda_role w).1.permissions = w.permissions := by
  unfold create_lambda_role
  cases hf : w.roles.find? (fun r => r.name == "EventsApiLambdaRole") with
  | some r => simp
  | none => simp [iam_attach_role_policy, iam_put_role_policy]

theorem lambda_add_permission_apis (fn sid : String) (w : World) :
    (lambda_add_permission fn sid w).apis = w.apis := by
  unfold lambda_add_permission; split <;> rfl

theorem lambda_add_permission_apiCount (fn sid : String) (w : World) :
    (lambda_add_permission fn sid w).apiCounter = w.apiCounter := by
  unfold lambda_add_permission; split <;> rfl

theorem lambda_add_permission_functions (fn sid : String) (w : World) :
    (lambda_add_permission fn sid w).functions = w.functions := by
  unfold lambda_add_permission; split <;> rfl

theorem lambda_add_permission_buckets (fn sid : String) (w : World) :
    (lambda_add_permission fn sid w).buckets = w.buckets := by
  unfold lambda_add_permission; split <;> rfl

theorem lambda_add_permission_s3Objects (fn sid : String) (w : World) :
    (lambda_add_permission fn sid w).s3Objects = w.s3Objects := by
  unfold lambda_add_permission; split <;> rfl

theorem lambda_add_permission_tables (fn sid : String) (w : World) :
    (lambda_add_permission fn sid w).tables = w.tables := by
  unfold lambda_add_permission; split <;> rfl

theorem lambda_add_permission_roles (fn sid : String) (w : World) :
    (lambda_add_permission fn sid w).roles = w.roles := by
  unfold lambda_add_permission; split <;> rfl

/-- The gateway provisioner always creates exactly one fresh API (and
touches no table, role, bucket or function). -/
theorem create_api_gateway_apis (a : Option String) (w : World) :
    ((create_api_gateway a w).1.apis.map (fun x => x.id))
      = fresh_api_id w.apiCounter :: w.apis.map (fun x => x.id) ∧
    (create_api_gateway a w).1.apiCounter = w.apiCounter + 1 ∧
    (create_api_gateway a w).2 = api_url_of (fresh_api_id w.apiCounter) ∧
    (create_api_gateway a w).1.functions = w.functions ∧
    (create_api_gateway a w).1.buckets = w.buckets ∧
    (create_api_gateway a w).1.s3Objects = w.s3Objects ∧
    (create_api_gateway a w).1.tables = w.tables ∧
    (create_api_gateway a w).1.roles = w.roles := by
  unfold create_api_gateway
  simp [lambda_add_permission_apis, lambda_add_permission_apiCount,
    lambda_add_permission_functions, lambda_add_permission_buckets,
    lambda_add_permission_s3Objects, lambda_add_permission_tables,
    lambda_add_permission_roles]

theorem fresh_api_id_len (n : Nat) : (fresh_api_id n).length = n + 1 := by
  simp [fresh_api_id, String.length]

theorem fresh_api_id_ne (n m : Nat) (h : n ≠ m) :
    fresh_api_id n ≠ fresh_api_id m := by
  intro he
  have hl := congrArg String.length he
  rw [fresh_api_id_len, fresh_api_id_len] at hl
  omega

theorem api_url_of_ne (s t : String) (h : s.length ≠ t.length) :
    api_url_of s ≠ api_url_of t := by
  intro he
  have hl := congrArg String.length he
  rw [api_url_of, api_url_of, String.length_append, String.length_append,
    String.length_append, String.length_append] at hl
  omega

/-! ## Claim theorems -/

/-- Claim C1: the delivery strategy is chosen deterministically by size:
an artifact of at most 50 MiB (52428800 bytes, boundary included) is
delivered as the raw zip payload inline; an artifact strictly above the
boundary causes the transient bucket to be provisioned, the artifact to
be uploaded there, and the delivery reference to become the
(bucket, key) pair. -/
theorem select_delivery_threshold (fs : Nat) (zc bn : String) (ok : Bool)
    (w : World) :
    (fs ≤ 52428800 →
      select_delivery fs zc bn ok w = (w, some (DeliveryRef.zipFile zc))) ∧
    (52428800 < fs →
      select_delivery fs zc bn true w
        = ({ w with
             buckets := bn :: w.buckets,
             s3Objects := (bn, "lambda_function.zip", zc) :: w.s3Objects },
           some (DeliveryRef.s3 bn "lambda_function.zip"))) := by
  constructor
  · intro h
    have hu : uses_s3 fs = false := (uses_s3_eq_false_iff fs).mpr h
    simp [select_delivery, hu]
  · intro h
    have hu : uses_s3 fs = true := (uses_s3_iff fs).mpr h
    simp [select_delivery, hu]

/-- Witness for C1 at the boundary: exactly 50 MiB goes inline, one byte
more is staged through the bucket. -/
theorem select_delivery_threshold_witness :
    select_delivery 52428800 "zipbytes" "lambda-deploy-1700000000" true
        World.empty
      = (World.empty, some (DeliveryRef.zipFile "zipbytes")) ∧
    select_delivery 52428801 "zipbytes" "lambda-deploy-1700000000" true
        World.empty
      = ({ World.empty with
           buckets := ["lambda-deploy-1700000000"],
           s3Objects :=
             [("lambda-deploy-1700000000", "lambda_function.zip", "zipbytes")] },
         some (DeliveryRef.s3 "lambda-deploy-1700000000" "lambda_function.zip")) :=
  ⟨(select_delivery_threshold 52428800 "zipbytes" "lambda-deploy-1700000000"
      true World.empty).1 (by norm_num),
   (select_delivery_threshold 52428801 "zipbytes" "lambda-deploy-1700000000"
      true World.empty).2 (by norm_num)⟩

/-- Claim C2 as stated is false at a concrete state: when the table
already exists, `create_dynamodb_table` returns from the exception
handler without running the active-waiter, so it does not block until
the table is active in that branch (here the pre-existing table is not
active and stays that way). -/
theorem create_dynamodb_table_exists_no_wait_cex :
    (create_dynamodb_table
        { World.empty with tables := [events_table_spec] }).2 = false ∧
    "EventsTable" ∉
      (create_dynamodb_table
        { World.empty with tables := [events_table_spec] }).1.tablesActive := by
  decide

/-- Claim C2 (amended): the provisioner treats the already-exists report
as success, but blocks until active only on the fresh-creation branch;
the already-exists branch returns immediately, unchanged and without
waiting.  Invoking it twice from a state without the table yields an
active table both times with no error surfaced on the second call. -/
theorem create_dynamodb_table_idempotent (w : World)
    (h : w.tables.any (fun t => t.name == "EventsTable") = false) :
    (create_dynamodb_table w).2 = true ∧
    "EventsTable" ∈ (create_dynamodb_table w).1.tablesActive ∧
    create_dynamodb_table (create_dynamodb_table w).1
      = ((create_dynamodb_table w).1, false) ∧
    "EventsTable" ∈
      (create_dynamodb_table (create_dynamodb_table w).1).1.tablesActive := by
  have h1 : (create_dynamodb_table w).2 = true := by
    simp [create_dynamodb_table, h]
  have h2 : "EventsTable" ∈ (create_dynamodb_table w).1.tablesActive := by
    simp [create_dynamodb_table, h]
  have h3 : (create_dynamodb_table w).1.tables.any
      (fun t => t.name == "EventsTable") = true := by
    simp [create_dynamodb_table, h, events_table_spec]
  have h4 := create_dynamodb_table_exists _ h3
  refine ⟨h1, h2, h4, ?_⟩
  rw [h4]
  exact h2

/-- Witness for C2 (amended) on the cold account. -/
theorem create_dynamodb_table_idempotent_witness :
    (create_dynamodb_table World.empty).2 = true ∧
    "EventsTable" ∈ (create_dynamodb_table World.empty).1.tablesActive ∧
    create_dynamodb_table (create_dynamodb_table World.empty).1
      = ((create_dynamodb_table World.empty).1, false) ∧
    "EventsTable" ∈
      (create_dynamodb_table (create_dynamodb_table World.empty).1).1.tablesActive :=
  create_dynamodb_table_idempotent World.empty (by decide)

/-- Claim C9: on the role provisioner's already-exists branch everything
except the returned ARN is left unchanged — the whole world state is
returned as-is (so no managed policy is attached and no inline policy is
put) and no propagation sleep is taken; the 10-second sleep happens only
on the fresh-creation branch. -/
theorem create_lambda_role_already_exists_frame (w : World) (r : RoleRec)
    (h : w.roles.find? (fun x => x.name == "EventsApiLambdaRole") = some r) :
    create_lambda_role w = (w, r.arn) ∧
    (create_lambda_role w).1.roles = w.roles ∧
    (create_lambda_role w).1.sleptSeconds = w.sleptSeconds ∧
    (∀ w2 : World,
      w2.roles.find? (fun x => x.name == "EventsApiLambdaRole") = none →
      (create_lambda_role w2).1.sleptSeconds = w2.sleptSeconds + 10) := by
  have he := create_lambda_role_exists w r h
  exact ⟨he, by rw [he], by rw [he],
    fun w2 h2 => (create_lambda_role_fresh_result w2 h2).2⟩

/-- A pre-existing role, as an adversarial input for the already-exists
branch: its policies differ from what fresh creation would attach. -/
def preexisting_role : RoleRec :=
  { name := "EventsApiLambdaRole",
    arn := "arn:aws:iam::123456789012:role/EventsApiLambdaRole",
    assumeRolePolicy := trust_policy, description := "pre-existing",
    attachedManaged := [], inlinePolicies := [] }

/-- A world already holding `preexisting_role`. -/
def preexisting_role_world : World :=
  { World.empty with roles := [preexisting_role] }

/-- Witness for C9: a state already holding the role. -/
theorem create_lambda_role_already_exists_frame_witness :
    create_lambda_role preexisting_role_world
      = (preexisting_role_world, preexisting_role.arn) ∧
    (create_lambda_role preexisting_role_world).1.roles
      = preexisting_role_world.roles ∧
    (create_lambda_role preexisting_role_world).1.sleptSeconds
      = preexisting_role_world.sleptSeconds ∧
    (∀ w2 : World,
      w2.roles.find? (fun x => x.name == "EventsApiLambdaRole") = none →
      (create_lambda_role w2).1.sleptSeconds = w2.sleptSeconds + 10) :=
  create_lambda_role_already_exists_frame preexisting_role_world
    preexisting_role (by decide)

/-- Claim C6: the role provisioner is idempotent on its returned
reference: a first invocation (no pre-existing role) creates the role
and returns its ARN, and a second invocation hits the already-exists
branch, fetches the stored role, and returns the same ARN with no error
surfaced. -/
theorem create_lambda_role_idempotent (w : World)
    (h : w.roles.find? (fun r => r.name == "EventsApiLambdaRole") = none) :
    (create_lambda_role w).2 = role_arn_of "EventsApiLambdaRole" ∧
    (create_lambda_role (create_lambda_role w).1).2
      = role_arn_of "EventsApiLambdaRole" := by
  refine ⟨(create_lambda_role_fresh_result w h).1, ?_⟩
  have hf := create_lambda_role_fresh_find w h
  have he := create_lambda_role_exists _ _ hf
  rw [he]

/-- Witness for C6 on the cold account. -/
theorem create_lambda_role_idempotent_witness :
    (create_lambda_role World.empty).2 = role_arn_of "EventsApiLambdaRole" ∧
    (create_lambda_role (create_lambda_role World.empty).1).2
      = role_arn_of "EventsApiLambdaRole" :=
  create_lambda_role_idempotent World.empty (by decide)

/-- Claim C7: on fresh creation the role provisioner attaches exactly
the baseline managed execution policy and puts exactly one inline policy
(`DynamoDBAccess`) whose single statement allows exactly the five
data-plane actions (put, get, update, delete item, and scan) and whose
Resource is the `EventsTable` identifier pattern — nothing else is
granted. -/
theorem create_lambda_role_least_privilege (w : World)
    (h : w.roles.find? (fun r => r.name == "EventsApiLambdaRole") = none) :
    (create_lambda_role w).1.roles.find?
        (fun r => r.name == "EventsApiLambdaRole")
      = some { name := "EventsApiLambdaRole",
               arn := role_arn_of "EventsApiLambdaRole",
               assumeRolePolicy := trust_policy,
               description := "Execution role for Events API Lambda",
               attachedManaged :=
                 ["arn:aws:iam::aws:policy/service-role/AWSLambdaBasicExecutionRole"],
               inlinePolicies := [("DynamoDBAccess", dynamodb_policy)] } ∧
    dynamodb_policy.actions
      = ["dynamodb:PutItem", "dynamodb:GetItem", "dynamodb:UpdateItem",
         "dynamodb:DeleteItem", "dynamodb:Scan"] ∧
    dynamodb_policy.resource = "arn:aws:dynamodb:us-west-2:*:table/EventsTable" ∧
    dynamodb_policy.effect = "Allow" :=
  ⟨create_lambda_role_fresh_find w h, rfl, rfl, rfl⟩

/-- Witness for C7 on the cold account. -/
theorem create_lambda_role_least_privilege_witness :
    (create_lambda_role World.empty).1.roles.find?
        (fun r => r.name == "EventsApiLambdaRole")
      = some { name := "EventsApiLambdaRole",
               arn := role_arn_of "EventsApiLambdaRole",
               assumeRolePolicy := trust_policy,
               description := "Execution role for Events API Lambda",
               attachedManaged :=
                 ["arn:aws:iam::aws:policy/service-role/AWSLambdaBasicExecutionRole"],
               inlinePolicies := [("DynamoDBAccess", dynamodb_policy)] } ∧
    dynamodb_policy.actions
      = ["dynamodb:PutItem", "dynamodb:GetItem", "dynamodb:UpdateItem",
         "dynamodb:DeleteItem", "dynamodb:Scan"] ∧
    dynamodb_policy.resource = "arn:aws:dynamodb:us-west-2:*:table/EventsTable" ∧
    dynamodb_policy.effect = "Allow" :=
  create_lambda_role_least_privilege World.empty (by decide)

/-- Claim C10: for every accepted create-event request the stored and
returned item's `eventId` is the server-generated UUID — any client
supplied `eventId` is overwritten and never stored (the result does not
depend on it) — and a `createdAt` timestamp is added to the stored
item. -/
theorem create_event_server_assigns_id (u t : String) (e : Event)
    (tbl : List StoredEvent) :
    (create_event u t e tbl).2.eventId = u ∧
    (create_event u t e tbl).2.createdAt = t ∧
    (create_event u t e tbl).1 = (create_event u t e tbl).2 :: tbl ∧
    (∀ c : String,
      create_event u t { e with eventId := some c } tbl
        = create_event u t { e with eventId := none } tbl) :=
  ⟨rfl, rfl, rfl, fun _ => rfl⟩

/-- Claim C8: the gateway provisioner has no update path: running it
twice against the same function reference from any state creates two
APIs with distinct identifiers, hence two distinct invocation URLs,
rather than converging on the existing API. -/
theorem create_api_gateway_not_idempotent (a : Option String) (w : World) :
    ((create_api_gateway a (create_api_gateway a w).1).1.apis.map
        (fun x => x.id))
      = fresh_api_id (w.apiCounter + 1) :: fresh_api_id w.apiCounter
          :: w.apis.map (fun x => x.id) ∧
    fresh_api_id (w.apiCounter + 1) ≠ fresh_api_id w.apiCounter ∧
    (create_api_gateway a (create_api_gateway a w).1).2
      ≠ (create_api_gateway a w).2 := by
  obtain ⟨ha1, hc1, hu1, _⟩ := create_api_gateway_apis a w
  obtain ⟨ha2, hc2, hu2, _⟩ :=
    create_api_gateway_apis a (create_api_gateway a w).1
  refine ⟨?_, ?_, ?_⟩
  · rw [ha2, hc1, ha1]
  · exact fresh_api_id_ne _ _ (by omega)
  · rw [hu1, hu2, hc1]
    exact api_url_of_ne _ _
      (by rw [fresh_api_id_len, fresh_api_id_len]; omega)

/-- The delivery selection never touches the functions of the world
(its only side effects are the bucket and the upload). -/
theorem select_delivery_functions (fs : Nat) (zc bn : String) (ok : Bool)
    (w : World) :
    (select_delivery fs zc bn ok w).1.functions = w.functions := by
  cases hu : uses_s3 fs <;> cases ok <;> simp [select_delivery, hu]

/-- Claim C5: when the function already exists, the provisioner hits the
conflict handler and updates: it pushes the new code via the chosen
delivery reference — whichever the selector chose, the inline zip or the
staged (bucket, key) pair — and then separately pushes the
configuration, so a second run converges the same-named function (here
with an arbitrary pre-existing code and environment) to the new code
and the run's environment value, without creating a newly-named
resource. -/
theorem create_or_update_lambda_update_path (w : World) (f0 : FunctionRec)
    (ra zc bn : String) (fs : Nat) (ok : Bool) (code : DeliveryRef)
    (hsel : (select_delivery fs zc bn ok w).2 = some code)
    (hf : w.functions.find? (fun f => f.name == "EventsApiFunction")
      = some f0) :
    (create_or_update_lambda ra fs zc bn ok w).1.functions.find?
        (fun f => f.name == "EventsApiFunction")
      = some { f0 with code := code, env := function_env } ∧
    (create_or_update_lambda ra fs zc bn ok w).1.functions.map
        (fun f => f.name)
      = w.functions.map (fun f => f.name) ∧
    (create_or_update_lambda ra fs zc bn ok w).2
      = some (function_arn_of "EventsApiFunction") := by
  rcases hp : select_delivery fs zc bn ok w with ⟨w1, oc⟩
  have hw1 : w1.functions = w.functions := by
    have hfr := select_delivery_functions fs zc bn ok w
    rw [hp] at hfr
    exact hfr
  rw [hp] at hsel
  dsimp only at hsel
  subst hsel
  have hf1 : w1.functions.find? (fun f => f.name == "EventsApiFunction")
      = some f0 := by
    rw [hw1]
    exact hf
  have hred : create_or_update_lambda ra fs zc bn ok w
      = (lambda_update_configuration "EventsApiFunction" function_env
          (lambda_update_code "EventsApiFunction" code w1),
         some (function_arn_of "EventsApiFunction")) := by
    unfold create_or_update_lambda
    rw [hp]
    dsimp only
    rw [hf1]
  have e1 := find?_map_update
    (w1.functions.map fun f =>
      if f.name == "EventsApiFunction" then { f with code := code } else f)
    "EventsApiFunction" (fun f => { f with env := function_env })
    (fun _ => rfl)
  have e2 := find?_map_update w1.functions "EventsApiFunction"
    (fun f => { f with code := code }) (fun _ => rfl)
  have e3 := map_name_update
    (w1.functions.map fun f =>
      if f.name == "EventsApiFunction" then { f with code := code } else f)
    "EventsApiFunction" (fun f => { f with env := function_env })
    (fun _ => rfl)
  have e4 := map_name_update w1.functions "EventsApiFunction"
    (fun f => { f with code := code }) (fun _ => rfl)
  rw [hred]
  refine ⟨?_, ?_, rfl⟩
  · simp only [lambda_update_configuration, lambda_update_code]
    rw [e1, e2, hf1]
    rfl
  · simp only [lambda_update_configuration, lambda_update_code]
    rw [e3, e4, hw1]

/-- A pre-existing function with stale code and environment, as the
adversarial input for the update path. -/
def old_function : FunctionRec :=
  { name := "EventsApiFunction", runtime := "python3.11",
    role := role_arn_of "EventsApiLambdaRole",
    handler := "lambda_handler.handler",
    code := DeliveryRef.zipFile "oldzip",
    env := [("DYNAMODB_TABLE", "OtherTable")],
    timeout := 30, memorySize := 512 }

/-- A world already holding `old_function`. -/
def old_function_world : World :=
  { World.empty with functions := [old_function] }

/-- Witness for C5 on both delivery references: a 2 MiB artifact
(inline zip) and a 52428801-byte artifact (staged through the bucket),
each against a pre-existing function with different code and
environment. -/
theorem create_or_update_lambda_update_path_witness :
    ((create_or_update_lambda "r" 2097152 "newzip" "b" true
        old_function_world).1.functions.find?
        (fun f => f.name == "EventsApiFunction")
      = some { old_function with
               code := DeliveryRef.zipFile "newzip", env := function_env } ∧
     (create_or_update_lambda "r" 2097152 "newzip" "b" true
        old_function_world).1.functions.map (fun f => f.name)
      = old_function_world.functions.map (fun f => f.name) ∧
     (create_or_update_lambda "r" 2097152 "newzip" "b" true
        old_function_world).2
      = some (function_arn_of "EventsApiFunction")) ∧
    ((create_or_update_lambda "r" 52428801 "newzip" "bkt" true
        old_function_world).1.functions.find?
        (fun f => f.name == "EventsApiFunction")
      = some { old_function with
               code := DeliveryRef.s3 "bkt" "lambda_function.zip",
               env := function_env } ∧
     (create_or_update_lambda "r" 52428801 "newzip" "bkt" true
        old_function_world).1.functions.map (fun f => f.name)
      = old_function_world.functions.map (fun f => f.name) ∧
     (create_or_update_lambda "r" 52428801 "newzip" "bkt" true
        old_function_world).2
      = some (function_arn_of "EventsApiFunction")) :=
  ⟨create_or_update_lambda_update_path old_function_world old_function
     "r" "newzip" "b" 2097152 true (DeliveryRef.zipFile "newzip")
     (by simp [select_delivery,
       (uses_s3_eq_false_iff 2097152).mpr (by norm_num)])
     (by decide),
   create_or_update_lambda_update_path old_function_world old_function
     "r" "newzip" "bkt" 52428801 true
     (DeliveryRef.s3 "bkt" "lambda_function.zip")
     (by simp [select_delivery, (uses_s3_iff 52428801).mpr (by norm_num)])
     (by decide)⟩

/-- When the bucket creation fails on the staged path, the lambda stage
prints the error and returns `None` (deploy.py lines 167-169) with the
world untouched: no function create or update call is issued. -/
theorem create_or_update_lambda_bucket_fail (ra : String) (fs : Nat)
    (zc bn : String) (w : World) (h : 52428800 < fs) :
    create_or_update_lambda ra fs zc bn false w = (w, none) := by
  have hu : uses_s3 fs = true := (uses_s3_iff fs).mpr h
  simp [create_or_update_lambda, select_delivery, hu]

/-- Claim C3 as stated is false at a concrete input: after a
bucket-creation failure on an oversized artifact, no function is
created, but the run is not aborted — `main` still runs gateway
provisioning, creating one API against the null function reference. -/
theorem bucket_failure_gateway_still_runs_cex :
    (deploy_main true 52428801 "zip" "bkt" false World.empty).1.functions
      = [] ∧
    (deploy_main true 52428801 "zip" "bkt" false World.empty).1.apis.length
      = 1 := by
  have hu : uses_s3 52428801 = true := (uses_s3_iff 52428801).mpr (by norm_num)
  have hfail : ∀ (ra2 : String) (w2 : World),
      create_or_update_lambda ra2 52428801 "zip" "bkt" false w2
        = (w2, none) := by
    intro ra2 w2
    simp [create_or_update_lambda, select_delivery, hu]
  constructor
  · simp [deploy_main, create_lambda_zip, hfail, create_dynamodb_table,
      create_lambda_role, iam_attach_role_policy, iam_put_role_policy,
      create_api_gateway, lambda_add_permission, World.empty]
  · simp [deploy_main, create_lambda_zip, hfail, create_dynamodb_table,
      create_lambda_role, iam_attach_role_policy, iam_put_role_policy,
      create_api_gateway, lambda_add_permission, World.empty]

/-- Claim C3 (amended): if creation of the transient bucket fails, no
compute-resource mutation happens — no function create or update call is
issued, the stage leaves the world untouched and returns a null
reference — but the run is not aborted: `main` does not short-circuit,
and gateway provisioning still runs, creating one new API. -/
theorem bucket_failure_no_compute_mutation (fs : Nat) (zc bn ra : String)
    (w : World) (h : 52428800 < fs) :
    create_or_update_lambda ra fs zc bn false w = (w, none) ∧
    (deploy_main true fs zc bn false w).1.functions = w.functions ∧
    (deploy_main true fs zc bn false w).1.buckets = w.buckets ∧
    (deploy_main true fs zc bn false w).1.apis.length = w.apis.length + 1 := by
  have hfail : ∀ (ra2 : String) (w2 : World),
      create_or_update_lambda ra2 fs zc bn false w2 = (w2, none) :=
    fun ra2 w2 => create_or_update_lambda_bucket_fail ra2 fs zc bn w2 h
  have hm : deploy_main true fs zc bn false w
      = ((create_api_gateway none
            (create_lambda_role (create_dynamodb_table w).1).1).1,
         Except.ok (create_api_gateway none
            (create_lambda_role (create_dynamodb_table w).1).1).2) := by
    unfold deploy_main
    simp [create_lambda_zip, hfail]
  obtain ⟨_, _, htb, _, htf, _, hta, _⟩ := create_dynamodb_table_frame w
  obtain ⟨_, _, hrb, _, hrf, _, hra, _⟩ :=
    create_lambda_role_frame (create_dynamodb_table w).1
  obtain ⟨hga, _, _, hgf, hgb, _⟩ :=
    create_api_gateway_apis none
      (create_lambda_role (create_dynamodb_table w).1).1
  refine ⟨hfail ra w, ?_, ?_, ?_⟩
  · rw [hm]
    exact hgf.trans (hrf.trans htf)
  · rw [hm]
    exact hgb.trans (hrb.trans htb)
  · rw [hm]
    have hlen := congrArg List.length hga
    simp only [List.length_map, List.length_cons] at hlen
    rw [hlen, hra, hta]

/-- Witness for C3 (amended) at one byte over the boundary on the cold
account. -/
theorem bucket_failure_no_compute_mutation_witness :
    create_or_update_lambda "r" 52428801 "zip" "bkt" false World.empty
      = (World.empty, none) ∧
    (deploy_main true 52428801 "zip" "bkt" false World.empty).1.functions
      = World.empty.functions ∧
    (deploy_main true 52428801 "zip" "bkt" false World.empty).1.buckets
      = World.empty.buckets ∧
    (deploy_main true 52428801 "zip" "bkt" false World.empty).1.apis.length
      = World.empty.apis.length + 1 :=
  bucket_failure_no_compute_mutation 52428801 "zip" "bkt" "r" World.empty
    (by norm_num)

/-- Claim C4 as stated is false at a concrete input: a dependency
resolution (pip) failure does abort the run, but the table and the role
have already been provisioned before the zip step, so remote create
calls have been issued by the time of the failure. -/
theorem pip_failure_remote_touched_cex :
    (deploy_main false 0 "" "" true World.empty).2
      = Except.error DeployError.calledProcessError ∧
    (deploy_main false 0 "" "" true World.empty).1.tables ≠ [] ∧
    (deploy_main false 0 "" "" true World.empty).1.roles ≠ [] :=
  ⟨rfl, by decide, by decide⟩

/-- Claim C4 (amended): a dependency-resolution failure aborts the run
before any function, bucket, upload, gateway or permission mutation —
those parts of the remote state are exactly as before the run — but
after table and role provisioning, which `main` sequences before the
artifact build, so those remote calls have already been issued. -/
theorem pip_failure_aborts_before_compute (fs : Nat) (zc bn : String)
    (ok : Bool) (w : World) :
    (deploy_main false fs zc bn ok w).2
      = Except.error DeployError.calledProcessError ∧
    (deploy_main false fs zc bn ok w).1.functions = w.functions ∧
    (deploy_main false fs zc bn ok w).1.buckets = w.buckets ∧
    (deploy_main false fs zc bn ok w).1.s3Objects = w.s3Objects ∧
    (deploy_main false fs zc bn ok w).1.apis = w.apis ∧
    (deploy_main false fs zc bn ok w).1.permissions = w.permissions := by
  have hm : deploy_main false fs zc bn ok w
      = ((create_lambda_role (create_dynamodb_table w).1).1,
         Except.error DeployError.calledProcessError) := by
    unfold deploy_main
    simp [create_lambda_zip]
  obtain ⟨_, _, htb, hts3, htf, _, hta, htp⟩ := create_dynamodb_table_frame w
  obtain ⟨_, _, hrb, hrs3, hrf, _, hra, hrp⟩ :=
    create_lambda_role_frame (create_dynamodb_table w).1
  rw [hm]
  exact ⟨rfl, hrf.trans htf, hrb.trans htb, hrs3.trans hts3,
    hra.trans hta, hrp.trans htp⟩
